import Mathlib

/-!
# Mattermost sample bot (`src/sample/bot_sample.go`)

A shallow embedding of the bot: its process-wide variables become a `World`
record threaded through every function, requests to the Mattermost server go
to a `Server` parameter and are recorded in a trace, `os.Exit` and run-time
panics (nil dereference, failed type assertion) are explicit results, and the
four `regexp.MatchString` calls are run by a small backtracking matcher over
the runes of the message.
-/

namespace SampleBot

/-! ## Constants -/

def SampleName : String := "Mattermost Bot Sample"
def UserEmail : String := "bot@example.com"
def UserPassword : String := "1qaz@WSX3edc"
def UserName : String := "samplebot"
def UserFirst : String := "Sample"
def UserLast : String := "Bot"
def TeamName : String := "localteam"
def ChannelLogName : String := "debugging-for-sample-bot"

/-- Value of `model.WEBSOCKET_EVENT_POSTED` in the Mattermost model package. -/
def WEBSOCKET_EVENT_POSTED : String := "posted"

/-- Value of `model.CHANNEL_OPEN` in the Mattermost model package. -/
def CHANNEL_OPEN : String := "O"

/-! ## Regular expressions

The fragment of RE2 syntax used by the four patterns
`(?:^|\W)tok(?:$|\W)`: literals, concatenation, alternation, the text
anchors `^` and `$` (no multi-line flag is set) and the Perl class `\W`.
Go matches rune by rune over the UTF-8 text; a message decoded from JSON is
valid UTF-8, so its runes are the `Char`s of the Lean string.
-/

/-- Perl class `\w` of Go's `regexp/syntax`: `[0-9A-Za-z_]`. -/
def isWordChar (c : Char) : Bool :=
  ('0' ≤ c && c ≤ '9') || ('A' ≤ c && c ≤ 'Z') || ('a' ≤ c && c ≤ 'z') || c == '_'

inductive Regex where
  | empty
  | beginText
  | endText
  | notWord
  | char (c : Char)
  | seq (a b : Regex)
  | alt (a b : Regex)
  deriving Repr

namespace Regex

/-- All ways of matching `re` at the current position. `atStart` tells whether
the position is the beginning of the text, the list is the text that is left;
each result is the position after one successful match. -/
def step : Regex → Bool → List Char → List (Bool × List Char)
  | empty, b, s => [(b, s)]
  | beginText, b, s => if b then [(b, s)] else []
  | endText, b, s => if s.isEmpty then [(b, s)] else []
  | notWord, _, [] => []
  | notWord, _, c :: t => if isWordChar c then [] else [(false, t)]
  | char _, _, [] => []
  | char c, _, d :: t => if d = c then [(false, t)] else []
  | seq a b, f, s => (step a f s).flatMap (fun r => step b r.1 r.2)
  | alt a b, f, s => step a f s ++ step b f s

/-- A literal string as a concatenation of its runes. -/
def lit : List Char → Regex
  | [] => empty
  | c :: cs => seq (char c) (lit cs)

/-- Unanchored search: is there a position from which `re` matches? -/
def search (re : Regex) : Bool → List Char → Bool
  | b, [] => !(step re b []).isEmpty
  | b, c :: t => !(step re b (c :: t)).isEmpty || search re false t

end Regex

/-- The pattern `(?:^|\W)tok(?:$|\W)`. -/
def wordPattern (tok : String) : Regex :=
  .seq (.alt .beginText .notWord) (.seq (Regex.lit tok.data) (.alt .endText .notWord))

/-- Model of `regexp.MatchString(pattern, s)` for a pattern that compiles: the boolean
result (the error result is nil and the code drops it). -/
def MatchString (re : Regex) (s : String) : Bool :=
  Regex.search re true s.data

/-- The four keywords, in the order the handler tries them. -/
def keywords : List String := ["alive", "up", "running", "hello"]

/-- Whole-word occurrence in the words of the specification: `tok` occurs in `body`
and the character before the occurrence, if any, and the character after it, if
any, are both outside `[0-9A-Za-z_]`. -/
def WholeWord (tok body : String) : Prop :=
  ∃ pre post : List Char, body.data = pre ++ tok.data ++ post ∧
    (∀ c, pre.getLast? = some c → isWordChar c = false) ∧
    (∀ c, post.head? = some c → isWordChar c = false)

/-! ## Data model

The fields of the Mattermost model records that the bot reads or writes.
A Go pointer that the server hands back is an `Option`: `none` is nil.
-/

structure AppError where
  Message : String
  Id : String
  DetailedError : String
  deriving DecidableEq, Repr

structure User where
  Id : String
  Email : String
  FirstName : String
  LastName : String
  Username : String
  deriving DecidableEq, Repr

structure Team where
  Id : String
  Name : String
  deriving DecidableEq, Repr

structure Channel where
  Id : String
  Name : String
  DisplayName : String
  Purpose : String
  Type_ : String
  TeamId : String
  deriving DecidableEq, Repr

structure Post where
  Id : String
  UserId : String
  ChannelId : String
  RootId : String
  Message : String
  deriving DecidableEq, Repr

/-- The zero value `model.Post{}`. -/
def Post.zero : Post := ⟨"", "", "", "", ""⟩

/-- The zero value `model.Channel{}`. -/
def Channel.zero : Channel := ⟨"", "", "", "", "", ""⟩

structure Client4 where
  Url : String
  AuthToken : String
  deriving DecidableEq, Repr

structure WebSocketClient where
  Url : String
  AuthToken : String
  deriving DecidableEq, Repr

/-- A value of type `interface{}` stored in `event.Data`: nil (also what a missing
key yields), a string, or a value of some other dynamic type. -/
inductive Iface where
  | nil
  | str (s : String)
  | other
  deriving DecidableEq, Repr

structure WebSocketBroadcast where
  ChannelId : String
  deriving DecidableEq, Repr

structure WebSocketEvent where
  Event : String
  Data : String → Iface
  Broadcast : WebSocketBroadcast

/-- Result pair of a `Client4` call: the decoded value (nil when absent) and
`resp.Error`. -/
structure Response (α : Type) where
  val : Option α
  Error : Option AppError
  deriving DecidableEq, Repr

/-- The Mattermost server as the bot sees it through `model.Client4` and
`model.NewWebSocketClient4`, over a server state `σ`. Lookups (HTTP GET) read
the state, the other requests may change it. `Login` also yields the session
token the client stores on success. -/
structure Server (σ : Type) where
  GetOldClientConfig : σ → Response (List (String × String))
  Login : σ → String → String → σ × String × Response User
  UpdateUser : σ → User → σ × Response User
  GetTeamByName : σ → String → Response Team
  GetChannelByName : σ → String → String → Response Channel
  CreateChannel : σ → Channel → σ × Response Channel
  CreatePost : σ → Post → σ × Response Post
  NewWebSocketClient4 : σ → String → String → σ × Option WebSocketClient × Option AppError

/-- What the process does that is visible outside it, in order. -/
inductive Effect where
  | println (s : String)
  | signalNotify
  | getOldClientConfig
  | login (email password : String)
  | updateUser (u : User)
  | getTeamByName (name : String)
  | getChannelByName (name teamId : String)
  | createChannel (c : Channel)
  | createPost (p : Post)
  | newWebSocketClient (url token : String)
  | wsListen (ws : WebSocketClient)
  | wsClose (ws : WebSocketClient)
  deriving DecidableEq, Repr

/-- The package-level variables of the program, the server it talks to and the
trace of its effects so far. `client` is built locally by `NewAPIv4Client`
before any use and is never nil. -/
structure World (σ : Type) where
  server : σ
  client : Client4
  webSocketClient : Option WebSocketClient
  botUser : Option User
  botTeam : Option Team
  debuggingChannel : Option Channel
  trace : List Effect

/-- Process start: every package-level pointer is nil, nothing has happened. -/
def World.start {σ : Type} (s : σ) : World σ :=
  ⟨s, ⟨"", ""⟩, none, none, none, none, []⟩

inductive PanicKind where
  | nilDereference
  | typeAssertion
  deriving DecidableEq, Repr

/-- How a piece of the program ends: it returns a value, calls `os.Exit`, or
panics. -/
inductive Res (σ : Type) (α : Type) where
  | ok (a : α) (w : World σ)
  | exit (code : Nat) (w : World σ)
  | panic (k : PanicKind) (w : World σ)

namespace Res

def world {σ α : Type} : Res σ α → World σ
  | ok _ w => w
  | exit _ w => w
  | panic _ w => w

/-- Exit status of the process when it ends here (`none`: still running).
An unrecovered panic ends a Go process with status 2. -/
def status {σ α : Type} : Res σ α → Option Nat
  | ok _ _ => none
  | exit c _ => some c
  | panic _ _ => some 2

def returns {σ α : Type} : Res σ α → Bool
  | ok _ _ => true
  | _ => false

/-- The value returned, if the run returns. -/
def value? {σ α : Type} : Res σ α → Option α
  | ok a _ => some a
  | _ => none

/-- The kind of panic, if the run panics. -/
def panicked? {σ α : Type} : Res σ α → Option PanicKind
  | panic k _ => some k
  | _ => none

end Res

def Prog (σ : Type) (α : Type) : Type := World σ → Res σ α

namespace Prog

def ret {σ α : Type} (a : α) : Prog σ α := fun w => .ok a w

def andThen {σ α β : Type} (m : Prog σ α) (f : α → Prog σ β) : Prog σ β := fun w =>
  match m w with
  | .ok a w1 => f a w1
  | .exit c w1 => .exit c w1
  | .panic k w1 => .panic k w1

instance {σ : Type} : Monad (Prog σ) where
  pure := ret
  bind := andThen

end Prog

/-! ## Primitive actions -/

section Actions
variable {σ : Type}

def emit (e : Effect) : Prog σ Unit := fun w => .ok () { w with trace := w.trace ++ [e] }

def println (s : String) : Prog σ Unit := emit (.println s)

def osExit {α : Type} (code : Nat) : Prog σ α := fun w => .exit code w

/-- Reading through a pointer: nil panics. -/
def deref {α : Type} (p : Option α) : Prog σ α := fun w =>
  match p with
  | some a => .ok a w
  | none => .panic .nilDereference w

/-- The type assertion `x.(string)` without the comma-ok form. -/
def assertString (x : Iface) : Prog σ String := fun w =>
  match x with
  | .str s => .ok s w
  | _ => .panic .typeAssertion w

def getWorld : Prog σ (World σ) := fun w => .ok w w

def setWorld (f : World σ → World σ) : Prog σ Unit := fun w => .ok () (f w)

/-- A lookup request: recorded in the trace, answered from the server state. -/
def query {α : Type} (e : Effect) (f : σ → Response α) : Prog σ (Response α) := fun w =>
  .ok (f w.server) { w with trace := w.trace ++ [e] }

/-- A request that may change the server state. -/
def request {α : Type} (e : Effect) (f : σ → σ × α) : Prog σ α := fun w =>
  .ok (f w.server).2 { w with server := (f w.server).1, trace := w.trace ++ [e] }

end Actions

/-! ## The program -/

section Program
variable {σ : Type}

def printError (err : AppError) : Prog σ Unit := do
  println "\tError Details:"
  println ("\t\t" ++ err.Message)
  println ("\t\t" ++ err.Id)
  println ("\t\t" ++ err.DetailedError)

/-- Indexing `props[key]` of a `map[string]string`: a nil map and a missing key
give the empty string. -/
def propsGet (props : Option (List (String × String))) (key : String) : String :=
  match props with
  | none => ""
  | some kvs => (kvs.lookup key).getD ""

def makeSureServerIsRunning (srv : Server σ) : Prog σ Unit := do
  let resp ← query .getOldClientConfig srv.GetOldClientConfig
  match resp.Error with
  | some err =>
    println "There was a problem pinging the Mattermost server.  Are you sure it's running?"
    printError err
    osExit 1
  | none =>
    println ("Server detected and is running version " ++ propsGet resp.val "Version")

def loginAsTheBotUser (srv : Server σ) : Prog σ Unit := do
  let r ← request (.login UserEmail UserPassword) (fun s => srv.Login s UserEmail UserPassword)
  match r.2.Error with
  | some err =>
    println "There was a problem logging into the Mattermost server.  Are you sure ran the setup steps from the README.md?"
    printError err
    osExit 1
  | none =>
    setWorld (fun w => { w with client := { w.client with AuthToken := r.1 }, botUser := r.2.val })

def updateTheBotUserIfNeeded (srv : Server σ) : Prog σ Unit := do
  let u ← deref (← getWorld).botUser
  if u.FirstName ≠ UserFirst ∨ u.LastName ≠ UserLast ∨ u.Username ≠ UserName then
    let u1 : User := { u with FirstName := UserFirst, LastName := UserLast, Username := UserName }
    setWorld (fun w => { w with botUser := some u1 })
    let resp ← request (.updateUser u1) (fun s => srv.UpdateUser s u1)
    match resp.Error with
    | some err =>
      println "We failed to update the Sample Bot user"
      printError err
      osExit 1
    | none =>
      setWorld (fun w => { w with botUser := resp.val })
      println "Looks like this might be the first run so we've updated the bots account settings"
  else
    pure ()

def findBotTeam (srv : Server σ) : Prog σ Unit := do
  let resp ← query (.getTeamByName TeamName) (fun s => srv.GetTeamByName s TeamName)
  match resp.Error with
  | some err =>
    println "We failed to get the initial load"
    println ("or we do not appear to be a member of the team '" ++ TeamName ++ "'")
    printError err
    osExit 1
  | none =>
    setWorld (fun w => { w with botTeam := resp.val })

def createBotDebuggingChannelIfNeeded (srv : Server σ) : Prog σ Unit := do
  let team ← deref (← getWorld).botTeam
  let resp ← query (.getChannelByName ChannelLogName team.Id)
    (fun s => srv.GetChannelByName s ChannelLogName team.Id)
  match resp.Error with
  | none =>
    setWorld (fun w => { w with debuggingChannel := resp.val })
  | some err =>
    println "We failed to get the channels"
    printError err
    -- Looks like we need to create the logging channel
    let team1 ← deref (← getWorld).botTeam
    let channel : Channel :=
      { Channel.zero with
        Name := ChannelLogName
        DisplayName := "Debugging For Sample Bot"
        Purpose := "This is used as a test channel for logging bot debug messages"
        Type_ := CHANNEL_OPEN
        TeamId := team1.Id }
    let resp1 ← request (.createChannel channel) (fun s => srv.CreateChannel s channel)
    match resp1.Error with
    | some err1 =>
      println ("We failed to create the channel " ++ ChannelLogName)
      printError err1
    | none =>
      setWorld (fun w => { w with debuggingChannel := resp1.val })
      println ("Looks like this might be the first run so we've created the channel " ++ ChannelLogName)

def sendMsgToDebuggingChannel (srv : Server σ) (msg : String) (replyToID : String) : Prog σ Unit := do
  let dc ← deref (← getWorld).debuggingChannel
  let post : Post := { Post.zero with ChannelId := dc.Id, Message := msg, RootId := replyToID }
  let resp ← request (.createPost post) (fun s => srv.CreatePost s post)
  match resp.Error with
  | some err =>
    println "We failed to send a message to the logging channel"
    printError err
  | none => pure ()

/-- The body of the `if post != nil` block, for a post that is not nil. The
result tells whether the block ended in `return`. -/
def handlePost (srv : Server σ) (post : Post) : Prog σ Bool := do
  let bot ← deref (← getWorld).botUser
  -- ignore my events
  if post.UserId = bot.Id then
    pure true
  else if MatchString (wordPattern "alive") post.Message then
    sendMsgToDebuggingChannel srv "Yes I'm running" post.Id
    pure true
  else if MatchString (wordPattern "up") post.Message then
    sendMsgToDebuggingChannel srv "Yes I'm running" post.Id
    pure true
  else if MatchString (wordPattern "running") post.Message then
    sendMsgToDebuggingChannel srv "Yes I'm running" post.Id
    pure true
  else if MatchString (wordPattern "hello") post.Message then
    sendMsgToDebuggingChannel srv "Yes I'm running" post.Id
    pure true
  else
    pure false

/-- The handler; `PostFromJson` is the decoder of the Mattermost model package
(nil when the text does not decode to a post). -/
def handleMsgFromDebuggingChannel (srv : Server σ) (PostFromJson : String → Option Post)
    (event : WebSocketEvent) : Prog σ Unit := do
  let dc ← deref (← getWorld).debuggingChannel
  -- If this isn't the debugging channel then lets ingore it
  if event.Broadcast.ChannelId ≠ dc.Id then
    pure ()
  -- Lets only reponded to messaged posted events
  else if event.Event ≠ WEBSOCKET_EVENT_POSTED then
    pure ()
  else
    println "responding to debugging channel msg"
    let text ← assertString (event.Data "post")
    let post := PostFromJson text
    let returned ← (match post with
      | some p => handlePost srv p
      | none => pure false)
    if returned then
      pure ()
    else
      let p ← deref post
      sendMsgToDebuggingChannel srv "I did not understand you!" p.Id

def handleWebSocketResponse (srv : Server σ) (PostFromJson : String → Option Post)
    (event : WebSocketEvent) : Prog σ Unit :=
  handleMsgFromDebuggingChannel srv PostFromJson event

/-- The function started by `setupGracefulShutdown`, run for the first interrupt
signal. -/
def interruptHandler (srv : Server σ) : Prog σ Unit := do
  match (← getWorld).webSocketClient with
  | some ws => emit (.wsClose ws)
  | none => pure ()
  sendMsgToDebuggingChannel srv ("_" ++ SampleName ++ " has **stopped** running_") ""
  osExit 0

def setupGracefulShutdown : Prog σ Unit :=
  emit .signalNotify

/-- Method `Listen` of the websocket client. The library starts a goroutine that
dereferences the receiver; for a nil receiver the model lets that panic happen
at the call. -/
def wsListen (ws : Option WebSocketClient) : Prog σ Unit := do
  let c ← deref ws
  emit (.wsListen c)

/-- The part of `main` up to `webSocketClient.Listen()`. The result is the LOCAL
variable `webSocketClient` that `:=` declares on line 68; the package-level
variable of the same name is not assigned. -/
def mainStart (srv : Server σ) : Prog σ (Option WebSocketClient) := do
  println SampleName
  setupGracefulShutdown
  setWorld (fun w => { w with client := ⟨"http://localhost:8065", ""⟩ })
  -- Lets test to see if the mattermost server is up and running
  makeSureServerIsRunning srv
  loginAsTheBotUser srv
  updateTheBotUserIfNeeded srv
  -- Lets find our bot team
  findBotTeam srv
  -- Lets create a bot channel for logging debug messages into
  createBotDebuggingChannelIfNeeded srv
  sendMsgToDebuggingChannel srv ("_" ++ SampleName ++ " has **started** running_") ""
  -- Lets start listening to some channels via the websocket!
  let token := (← getWorld).client.AuthToken
  let r ← request (.newWebSocketClient "ws://localhost:8065" token)
    (fun s => srv.NewWebSocketClient4 s "ws://localhost:8065" token)
  let webSocketClient := r.1
  match r.2 with
  | some err =>
    println "We failed to connect to the web socket"
    printError err
  | none => pure ()
  wsListen webSocketClient
  pure webSocketClient

/-- The statements of `main` that run before `findBotTeam()` (lines 39 to 54). -/
def stepsBeforeTeam (srv : Server σ) : Prog σ Unit := do
  println SampleName
  setupGracefulShutdown
  setWorld (fun w => { w with client := ⟨"http://localhost:8065", ""⟩ })
  makeSureServerIsRunning srv
  loginAsTheBotUser srv
  updateTheBotUserIfNeeded srv

/-- The statements of `main` from `createBotDebuggingChannelIfNeeded()` to
`webSocketClient.Listen()` (lines 64 to 74). -/
def stepsAfterTeam (srv : Server σ) : Prog σ (Option WebSocketClient) := do
  createBotDebuggingChannelIfNeeded srv
  sendMsgToDebuggingChannel srv ("_" ++ SampleName ++ " has **started** running_") ""
  let token := (← getWorld).client.AuthToken
  let r ← request (.newWebSocketClient "ws://localhost:8065" token)
    (fun s => srv.NewWebSocketClient4 s "ws://localhost:8065" token)
  let webSocketClient := r.1
  match r.2 with
  | some err =>
    println "We failed to connect to the web socket"
    printError err
  | none => pure ()
  wsListen webSocketClient
  pure webSocketClient

/-- The receive loop of `main`, for the events that arrive. -/
def eventLoop (srv : Server σ) (PostFromJson : String → Option Post) :
    List WebSocketEvent → Prog σ Unit
  | [] => pure ()
  | e :: es => do
    handleWebSocketResponse srv PostFromJson e
    eventLoop srv PostFromJson es

/-- The whole of `main` on a finite stream of events; returning means the process
is still blocked in `select {}`. -/
def main (srv : Server σ) (PostFromJson : String → Option Post)
    (events : List WebSocketEvent) : Prog σ Unit := do
  let _ ← mainStart srv
  eventLoop srv PostFromJson events

end Program

/-! ## Reading a trace -/

/-- The posts sent with `CreatePost`, in order. -/
def sentPosts : List Effect → List Post
  | [] => []
  | .createPost p :: es => p :: sentPosts es
  | _ :: es => sentPosts es

/-- The channels submitted with `CreateChannel`, in order. -/
def createRequests : List Effect → List Channel
  | [] => []
  | .createChannel c :: es => c :: createRequests es
  | _ :: es => createRequests es

/-- Requests of bootstrap steps 5 and 6 and of the replies: channel lookup,
channel creation, posting. -/
def Effect.isChannelOp : Effect → Bool
  | .getChannelByName _ _ => true
  | .createChannel _ => true
  | .createPost _ => true
  | _ => false

def channelOps (t : List Effect) : List Effect := t.filter Effect.isChannelOp

/-- The websocket clients closed, in order. -/
def closedStreams : List Effect → List WebSocketClient
  | [] => []
  | .wsClose ws :: es => ws :: closedStreams es
  | _ :: es => closedStreams es

/-- The text after an occurrence starts with no word character. -/
def boundary (s : List Char) : Prop := ∀ c, s.head? = some c → isWordChar c = false

/-- The post that `sendMsgToDebuggingChannel` builds for the channel `ch`. -/
def outPost (ch : Channel) (msg replyToID : String) : Post :=
  { Post.zero with ChannelId := ch.Id, Message := msg, RootId := replyToID }

/-- The channel that `createBotDebuggingChannelIfNeeded` submits for the team. -/
def logChannel (team : Team) : Channel :=
  { Channel.zero with
    Name := ChannelLogName
    DisplayName := "Debugging For Sample Bot"
    Purpose := "This is used as a test channel for logging bot debug messages"
    Type_ := CHANNEL_OPEN
    TeamId := team.Id }

/-- Running `m` issues no channel lookup, channel creation or post, and the
process does not end with status 0 in it. -/
def Quiet {σ α : Type} (m : Prog σ α) : Prop :=
  ∀ w, channelOps (m w).world.trace = channelOps w.trace ∧ (m w).status ≠ some 0

/-- What the interrupt handler can see or do about the event stream: the
package-level `webSocketClient` and the streams closed so far. -/
def streamObs {σ : Type} (w : World σ) : Option WebSocketClient × List WebSocketClient :=
  (w.webSocketClient, closedStreams w.trace)

/-- Running `m` neither assigns the package-level `webSocketClient` nor closes a
stream. -/
def KeepsStream {σ α : Type} (m : Prog σ α) : Prop :=
  ∀ w, streamObs (m w).world = streamObs w

/-- Server model of the idempotence property: a channel that `CreateChannel`
reports as created is what a lookup by its name and team returns afterwards. -/
def CreatedIsFound {σ : Type} (srv : Server σ) : Prop :=
  ∀ s c, (srv.CreateChannel s c).2.Error = none →
    srv.GetChannelByName (srv.CreateChannel s c).1 c.Name c.TeamId =
      ⟨(srv.CreateChannel s c).2.val, none⟩

/-! ## Test fixtures

A small concrete server and concrete events, used to run the program. -/

namespace Fixture

def refused : AppError := ⟨"refused", "api.fixture.refused", "the fixture server refuses this request"⟩

def bot : User := ⟨"bot-id", UserEmail, UserFirst, UserLast, UserName⟩

def team : Team := ⟨"team-id", TeamName⟩

def channel : Channel := { logChannel team with Id := "channel-id" }

/-- A server whose state is the list of channels that exist. Team lookup and
channel creation succeed or fail as the two flags say; creation also fails when
the name is taken in the team. -/
def server (teamOk createOk : Bool) : Server (List Channel) where
  GetOldClientConfig _ := ⟨some [("Version", "5.0.0")], none⟩
  Login s _ _ := (s, "token", ⟨some bot, none⟩)
  UpdateUser s u := (s, ⟨some u, none⟩)
  GetTeamByName _ _ := if teamOk then ⟨some team, none⟩ else ⟨none, some refused⟩
  GetChannelByName s n t :=
    match s.find? (fun c => c.Name = n ∧ c.TeamId = t) with
    | some c => ⟨some c, none⟩
    | none => ⟨none, some refused⟩
  CreateChannel s c :=
    match s.find? (fun d => d.Name = c.Name ∧ d.TeamId = c.TeamId) with
    | some _ => (s, ⟨none, some refused⟩)
    | none =>
      if createOk then
        (s ++ [{ c with Id := "channel-id" }], ⟨some { c with Id := "channel-id" }, none⟩)
      else
        (s, ⟨none, some refused⟩)
  CreatePost s p := (s, ⟨some { p with Id := "new-post-id" }, none⟩)
  NewWebSocketClient4 s url token := (s, some ⟨url, token⟩, none)

/-- The state after a bootstrap that found the logging channel. -/
def world : World (List Channel) :=
  ⟨[channel], ⟨"http://localhost:8065", "token"⟩, none, some bot, some team, some channel, []⟩

/-- A decoder for the fixtures: the payload text is the message of a post by the
given author. -/
def decode (author : String) (text : String) : Option Post :=
  some ⟨"post-id", author, "channel-id", "", text⟩

/-- A `posted` event in the logging channel whose payload is `text`. -/
def posted (text : String) : WebSocketEvent :=
  ⟨WEBSOCKET_EVENT_POSTED, fun k => if k = "post" then .str text else .nil, ⟨"channel-id"⟩⟩

end Fixture

/-! ## The matcher -/

theorem mem_step_lit (tok : List Char) (b : Bool) (s : List Char) (r : Bool × List Char) :
    r ∈ Regex.step (Regex.lit tok) b s ↔ s = tok ++ r.2 ∧ r.1 = (b && tok.isEmpty) := by
  induction tok generalizing b s with
  | nil =>
    obtain ⟨r1, r2⟩ := r
    simp [Regex.lit, Regex.step]
    constructor
    · rintro ⟨rfl, rfl⟩; exact ⟨rfl, rfl⟩
    · rintro ⟨rfl, rfl⟩; exact ⟨rfl, rfl⟩
  | cons c cs ih =>
    obtain ⟨r1, r2⟩ := r
    cases s with
    | nil => simp [Regex.lit, Regex.step]
    | cons d t =>
      by_cases h : d = c
      · subst h
        simp [Regex.lit, Regex.step, ih]
      · simp [Regex.lit, Regex.step, h]

theorem exists_mem_step_tail (b : Bool) (s : List Char) :
    (∃ r, r ∈ Regex.step (.alt .endText .notWord) b s) ↔ boundary s := by
  cases s with
  | nil => simp [Regex.step, boundary]
  | cons c t =>
    by_cases h : isWordChar c = true
    · simp [Regex.step, boundary, h]
    · simp [Regex.step, boundary, h]

theorem mem_step_head (b : Bool) (s : List Char) (r : Bool × List Char) :
    r ∈ Regex.step (.alt .beginText .notWord) b s ↔
      (b = true ∧ r = (true, s)) ∨ (∃ c, s = c :: r.2 ∧ isWordChar c = false ∧ r.1 = false) := by
  obtain ⟨r1, r2⟩ := r
  cases s with
  | nil => cases b <;> simp [Regex.step]
  | cons c t =>
    by_cases h : isWordChar c = true
    · cases b <;> simp [Regex.step, h]
    · have h1 : isWordChar c = false := by simpa using h
      cases b <;> simp [Regex.step, h1] <;> tauto

theorem exists_mem_step_wordPattern (tok : String) (b : Bool) (s : List Char) :
    (∃ r, r ∈ Regex.step (wordPattern tok) b s) ↔
      (b = true ∧ ∃ s2, s = tok.data ++ s2 ∧ boundary s2) ∨
      (∃ c s2, s = c :: (tok.data ++ s2) ∧ isWordChar c = false ∧ boundary s2) := by
  have key : (∃ r, r ∈ Regex.step (wordPattern tok) b s) ↔
      ∃ r1, r1 ∈ Regex.step (.alt .beginText .notWord) b s ∧
        ∃ r2, r2 ∈ Regex.step (Regex.lit tok.data) r1.1 r1.2 ∧
          ∃ r, r ∈ Regex.step (.alt .endText .notWord) r2.1 r2.2 := by
    simp only [wordPattern, Regex.step, List.mem_flatMap]
    constructor
    · rintro ⟨r, r1, h1, r2, h2, h3⟩; exact ⟨r1, h1, r2, h2, r, h3⟩
    · rintro ⟨r1, h1, r2, h2, r, h3⟩; exact ⟨r, r1, h1, r2, h2, h3⟩
  rw [key]
  simp only [exists_mem_step_tail, mem_step_head, mem_step_lit]
  constructor
  · rintro ⟨r1, h1 | ⟨c, hs, hc, _⟩, r2, ⟨h2, _⟩, h3⟩
    · obtain ⟨hb, rfl⟩ := h1
      exact Or.inl ⟨hb, r2.2, h2, h3⟩
    · refine Or.inr ⟨c, r2.2, ?_, hc, h3⟩
      rw [hs, h2]
  · rintro (⟨hb, s2, hs, h3⟩ | ⟨c, s2, hs, hc, h3⟩)
    · exact ⟨(true, s), Or.inl ⟨hb, rfl⟩, (true && tok.data.isEmpty, s2), ⟨hs, rfl⟩, h3⟩
    · exact ⟨(false, tok.data ++ s2), Or.inr ⟨c, hs, hc, rfl⟩,
        (false && tok.data.isEmpty, s2), ⟨rfl, rfl⟩, h3⟩

theorem search_iff (re : Regex) (b : Bool) (s : List Char) :
    Regex.search re b s = true ↔
      ∃ pre rest, s = pre ++ rest ∧ ∃ r, r ∈ Regex.step re (b && pre.isEmpty) rest := by
  induction s generalizing b with
  | nil =>
    simp only [Regex.search]
    constructor
    · intro h
      refine ⟨[], [], rfl, ?_⟩
      cases hl : Regex.step re b [] with
      | nil => simp [hl] at h
      | cons x _ => exact ⟨x, by simp [hl]⟩
    · rintro ⟨pre, rest, hs, r, hr⟩
      have hp : pre = [] := by
        cases pre with
        | nil => rfl
        | cons _ _ => simp at hs
      have hq : rest = [] := by
        subst hp
        simpa using hs.symm
      subst hp; subst hq
      cases hl : Regex.step re b [] with
      | nil => simp [hl] at hr
      | cons _ _ => simp
  | cons c t ih =>
    simp only [Regex.search, Bool.or_eq_true, ih]
    constructor
    · rintro (h | ⟨pre, rest, hs, r, hr⟩)
      · refine ⟨[], c :: t, rfl, ?_⟩
        cases hl : Regex.step re b (c :: t) with
        | nil => simp [hl] at h
        | cons x _ => exact ⟨x, by simp [hl]⟩
      · exact ⟨c :: pre, rest, by simp [hs], r, by simpa using hr⟩
    · rintro ⟨pre, rest, hs, r, hr⟩
      cases pre with
      | nil =>
        left
        simp only [List.nil_append] at hs
        subst hs
        cases hl : Regex.step re b (c :: t) with
        | nil => simp [hl] at hr
        | cons _ _ => simp
      | cons d pre1 =>
        right
        simp only [List.cons_append, List.cons.injEq] at hs
        exact ⟨pre1, rest, hs.2, r, by simpa using hr⟩

/-- The matcher run on the pattern of a keyword decides the whole-word occurrence
of the specification. -/
theorem matchString_wordPattern_iff (tok body : String) :
    MatchString (wordPattern tok) body = true ↔ WholeWord tok body := by
  unfold MatchString WholeWord
  rw [search_iff]
  simp only [exists_mem_step_wordPattern]
  constructor
  · rintro ⟨pre, rest, hs, ⟨hb, s2, hr, h3⟩ | ⟨c, s2, hr, hc, h3⟩⟩
    · have hp : pre = [] := by simpa using hb
      subst hp
      exact ⟨[], s2, by simp [hs, hr], by simp, h3⟩
    · refine ⟨pre ++ [c], s2, by simp [hs, hr], ?_, h3⟩
      intro d hd
      simp at hd
      subst hd
      exact hc
  · rintro ⟨pre, post, hs, hpre, hpost⟩
    rcases List.eq_nil_or_concat pre with rfl | ⟨p1, c, rfl⟩
    · exact ⟨[], body.data, rfl, Or.inl ⟨rfl, post, by simpa using hs, hpost⟩⟩
    · refine ⟨p1, c :: (tok.data ++ post), by simp [hs], Or.inr ⟨c, post, rfl, ?_, hpost⟩⟩
      exact hpre c (by simp)


/-! ## Traces -/

theorem sentPosts_append (a b : List Effect) : sentPosts (a ++ b) = sentPosts a ++ sentPosts b := by
  induction a with
  | nil => rfl
  | cons e es ih => cases e <;> simp [sentPosts, ih]

section Handler
variable {σ : Type}

theorem printError_ok (err : AppError) (w : World σ) :
    printError err w = .ok () { w with trace := w.trace ++
      [.println "\tError Details:", .println ("\t\t" ++ err.Message),
       .println ("\t\t" ++ err.Id), .println ("\t\t" ++ err.DetailedError)] } := by
  simp [printError, println, emit, bind, Prog.andThen]

theorem sendMsg_ok (srv : Server σ) (msg replyToID : String) (w : World σ) (ch : Channel)
    (hch : w.debuggingChannel = some ch) :
    ∃ w1, sendMsgToDebuggingChannel srv msg replyToID w = .ok () w1 ∧
      sentPosts w1.trace = sentPosts w.trace ++ [outPost ch msg replyToID] ∧
      w1.debuggingChannel = w.debuggingChannel ∧ w1.botUser = w.botUser := by
  simp only [sendMsgToDebuggingChannel, bind, Prog.andThen, getWorld, deref, hch, request]
  cases h : (srv.CreatePost w.server
      { Post.zero with ChannelId := ch.Id, Message := msg, RootId := replyToID }).2.Error with
  | none =>
    simp [pure, Prog.ret, sentPosts_append, sentPosts, outPost]
  | some err =>
    simp [println, emit, printError, bind, Prog.andThen, sentPosts_append, sentPosts, outPost]


theorem handlePost_own (srv : Server σ) (p : Post) (w : World σ) (bot : User)
    (hbot : w.botUser = some bot) (hauthor : p.UserId = bot.Id) :
    handlePost srv p w = .ok true w := by
  simp [handlePost, bind, Prog.andThen, getWorld, deref, hbot, hauthor, pure, Prog.ret]

theorem handlePost_keyword (srv : Server σ) (p : Post) (w : World σ) (ch : Channel) (bot : User)
    (hch : w.debuggingChannel = some ch) (hbot : w.botUser = some bot)
    (hauthor : p.UserId ≠ bot.Id)
    (hkw : ∃ tok, tok ∈ keywords ∧ MatchString (wordPattern tok) p.Message = true) :
    ∃ w1, handlePost srv p w = .ok true w1 ∧
      sentPosts w1.trace = sentPosts w.trace ++ [outPost ch "Yes I'm running" p.Id] := by
  obtain ⟨w1, h1, h2, -, -⟩ := sendMsg_ok srv "Yes I'm running" p.Id w ch hch
  refine ⟨w1, ?_, h2⟩
  simp only [handlePost, bind, Prog.andThen, getWorld, deref, hbot, if_neg hauthor]
  by_cases ha : MatchString (wordPattern "alive") p.Message = true
  · simp [Prog.andThen, ha, h1, pure, Prog.ret]
  by_cases hu : MatchString (wordPattern "up") p.Message = true
  · simp [Prog.andThen, ha, hu, h1, pure, Prog.ret]
  by_cases hr : MatchString (wordPattern "running") p.Message = true
  · simp [Prog.andThen, ha, hu, hr, h1, pure, Prog.ret]
  by_cases hh : MatchString (wordPattern "hello") p.Message = true
  · simp [Prog.andThen, ha, hu, hr, hh, h1, pure, Prog.ret]
  exfalso
  obtain ⟨tok, htok, hm⟩ := hkw
  simp only [keywords, List.mem_cons, List.mem_singleton, List.not_mem_nil, or_false] at htok
  rcases htok with rfl | rfl | rfl | rfl
  · exact ha hm
  · exact hu hm
  · exact hr hm
  · exact hh hm

theorem handlePost_noKeyword (srv : Server σ) (p : Post) (w : World σ) (bot : User)
    (hbot : w.botUser = some bot) (hauthor : p.UserId ≠ bot.Id)
    (hkw : ∀ tok, tok ∈ keywords → MatchString (wordPattern tok) p.Message = false) :
    handlePost srv p w = .ok false w := by
  have ha := hkw "alive" (by simp [keywords])
  have hu := hkw "up" (by simp [keywords])
  have hr := hkw "running" (by simp [keywords])
  have hh := hkw "hello" (by simp [keywords])
  simp [handlePost, bind, Prog.andThen, getWorld, deref, hbot, hauthor, ha, hu, hr, hh, pure,
    Prog.ret]

/-- What the handler does with a `posted` event of the logging channel whose
payload is a string: it prints, decodes, runs the guarded block and, unless
that block returned, reads `post.Id` and sends the fallback. -/
theorem handle_posted (srv : Server σ) (PostFromJson : String → Option Post)
    (event : WebSocketEvent) (w : World σ) (ch : Channel) (text : String)
    (hch : w.debuggingChannel = some ch)
    (hbc : event.Broadcast.ChannelId = ch.Id) (hev : event.Event = WEBSOCKET_EVENT_POSTED)
    (hdata : event.Data "post" = .str text) :
    handleMsgFromDebuggingChannel srv PostFromJson event w =
      match PostFromJson text with
      | some p =>
        (match handlePost srv p
            { w with trace := w.trace ++ [.println "responding to debugging channel msg"] } with
          | .ok true w1 => .ok () w1
          | .ok false w1 => sendMsgToDebuggingChannel srv "I did not understand you!" p.Id w1
          | .exit c w1 => .exit c w1
          | .panic k w1 => .panic k w1)
      | none =>
        .panic .nilDereference
          { w with trace := w.trace ++ [.println "responding to debugging channel msg"] } := by
  obtain ⟨s, cl, ws, bu, bt, dc, tr⟩ := w
  dsimp only at hch
  subst hch
  simp only [handleMsgFromDebuggingChannel, bind, Prog.andThen, getWorld, deref, hbc, hev,
    println, emit, assertString, hdata, ne_eq, not_true_eq_false, if_false]
  cases hp : PostFromJson text with
  | none => simp [pure, Prog.ret, Prog.andThen, deref]
  | some p =>
    simp only []
    generalize handlePost srv p _ = r
    rcases r with ⟨a, w1⟩ | ⟨c, w1⟩ | ⟨k, w1⟩
    · cases a <;> simp [pure, Prog.ret, Prog.andThen, deref]
    · rfl
    · rfl

/-- A post by someone else with a keyword match: one reply, the fixed text. -/
theorem handle_keyword (srv : Server σ) (PostFromJson : String → Option Post)
    (event : WebSocketEvent) (w : World σ) (ch : Channel) (bot : User) (text : String) (p : Post)
    (hch : w.debuggingChannel = some ch) (hbot : w.botUser = some bot)
    (hbc : event.Broadcast.ChannelId = ch.Id) (hev : event.Event = WEBSOCKET_EVENT_POSTED)
    (hdata : event.Data "post" = .str text) (hparse : PostFromJson text = some p)
    (hauthor : p.UserId ≠ bot.Id)
    (hkw : ∃ tok, tok ∈ keywords ∧ MatchString (wordPattern tok) p.Message = true) :
    (handleMsgFromDebuggingChannel srv PostFromJson event w).returns = true ∧
    sentPosts (handleMsgFromDebuggingChannel srv PostFromJson event w).world.trace =
      sentPosts w.trace ++ [outPost ch "Yes I'm running" p.Id] := by
  obtain ⟨w1, h1, h2⟩ := handlePost_keyword srv p
    { w with trace := w.trace ++ [.println "responding to debugging channel msg"] } ch bot
    hch hbot hauthor hkw
  simp only [sentPosts_append, sentPosts, List.append_nil] at h2
  rw [handle_posted srv PostFromJson event w ch text hch hbc hev hdata, hparse]
  simp only [h1]
  exact ⟨rfl, h2⟩

/-- A post by someone else with no keyword match: one reply, the fallback text. -/
theorem handle_fallback (srv : Server σ) (PostFromJson : String → Option Post)
    (event : WebSocketEvent) (w : World σ) (ch : Channel) (bot : User) (text : String) (p : Post)
    (hch : w.debuggingChannel = some ch) (hbot : w.botUser = some bot)
    (hbc : event.Broadcast.ChannelId = ch.Id) (hev : event.Event = WEBSOCKET_EVENT_POSTED)
    (hdata : event.Data "post" = .str text) (hparse : PostFromJson text = some p)
    (hauthor : p.UserId ≠ bot.Id)
    (hkw : ∀ tok, tok ∈ keywords → MatchString (wordPattern tok) p.Message = false) :
    (handleMsgFromDebuggingChannel srv PostFromJson event w).returns = true ∧
    sentPosts (handleMsgFromDebuggingChannel srv PostFromJson event w).world.trace =
      sentPosts w.trace ++ [outPost ch "I did not understand you!" p.Id] := by
  have h1 := handlePost_noKeyword srv p
    { w with trace := w.trace ++ [.println "responding to debugging channel msg"] } bot
    hbot hauthor hkw
  obtain ⟨w2, h2, h3, -, -⟩ := sendMsg_ok srv "I did not understand you!" p.Id
    { w with trace := w.trace ++ [.println "responding to debugging channel msg"] } ch hch
  simp only [sentPosts_append, sentPosts, List.append_nil] at h3
  rw [handle_posted srv PostFromJson event w ch text hch hbc hev hdata, hparse]
  simp only [h1, h2]
  exact ⟨rfl, h3⟩

theorem char_le_iff (a b : Char) : a ≤ b ↔ a.toNat ≤ b.toNat := Iff.rfl

theorem char_eq_iff (a b : Char) : a = b ↔ a.toNat = b.toNat := by
  constructor
  · intro h; rw [h]
  · intro h
    apply Char.ext
    apply UInt32.ext
    exact h

/-- The word characters are the code points of `0-9`, `A-Z`, `a-z` and `_`. -/
theorem isWordChar_iff (c : Char) :
    isWordChar c = true ↔
      (48 ≤ c.toNat ∧ c.toNat ≤ 57) ∨ (65 ≤ c.toNat ∧ c.toNat ≤ 90) ∨
      (97 ≤ c.toNat ∧ c.toNat ≤ 122) ∨ c.toNat = 95 := by
  have h0 : ('0' : Char).toNat = 48 := by decide
  have h9 : ('9' : Char).toNat = 57 := by decide
  have hA : ('A' : Char).toNat = 65 := by decide
  have hZ : ('Z' : Char).toNat = 90 := by decide
  have ha : ('a' : Char).toNat = 97 := by decide
  have hz : ('z' : Char).toNat = 122 := by decide
  have hu : ('_' : Char).toNat = 95 := by decide
  simp only [isWordChar, Bool.or_eq_true, Bool.and_eq_true, decide_eq_true_eq, beq_iff_eq,
    char_le_iff, char_eq_iff c '_', h0, h9, hA, hZ, ha, hz, hu]
  tauto

theorem uint32_le_iff (a b : UInt32) : a ≤ b ↔ a.toNat ≤ b.toNat := Iff.rfl

theorem isAlphanum_iff (c : Char) :
    c.isAlphanum = true ↔
      (48 ≤ c.toNat ∧ c.toNat ≤ 57) ∨ (65 ≤ c.toNat ∧ c.toNat ≤ 90) ∨
      (97 ≤ c.toNat ∧ c.toNat ≤ 122) := by
  have e : c.val.toNat = c.toNat := rfl
  have h48 : (48 : UInt32).toNat = 48 := by decide
  have h57 : (57 : UInt32).toNat = 57 := by decide
  have h65 : (65 : UInt32).toNat = 65 := by decide
  have h90 : (90 : UInt32).toNat = 90 := by decide
  have h97 : (97 : UInt32).toNat = 97 := by decide
  have h122 : (122 : UInt32).toNat = 122 := by decide
  simp only [Char.isAlphanum, Char.isAlpha, Char.isUpper, Char.isLower, Char.isDigit,
    Bool.or_eq_true, Bool.and_eq_true, decide_eq_true_eq, ge_iff_le, uint32_le_iff, e,
    h48, h57, h65, h90, h97, h122]
  tauto

/-- The class `\w` of the patterns is the ASCII letters, the digits and `_`. -/
theorem isWordChar_iff_alnum (c : Char) :
    isWordChar c = true ↔ (c.isAlphanum = true ∨ c = '_') := by
  have hu : ('_' : Char).toNat = 95 := by decide
  rw [isWordChar_iff, isAlphanum_iff, char_eq_iff c '_', hu]
  tauto

theorem isWordChar_false_iff (c : Char) :
    isWordChar c = false ↔ ¬ (c.isAlphanum = true ∨ c = '_') := by
  rw [← isWordChar_iff_alnum]
  simp

theorem isWordChar_of_nonASCII (c : Char) (h : 128 ≤ c.toNat) : isWordChar c = false := by
  cases hw : isWordChar c with
  | false => rfl
  | true =>
    have h1 := (isWordChar_iff c).mp hw
    omega

/-- Where a keyword is not a whole word, each of its occurrences has a neighbour
that is an ASCII letter, a digit or an underscore. -/
theorem wordNeighbour_of_not_wholeWord (tok body : String) (h : ¬ WholeWord tok body)
    (pre post : List Char) (hs : body.data = pre ++ tok.data ++ post) :
    (∃ c, pre.getLast? = some c ∧ (c.isAlphanum = true ∨ c = '_')) ∨
    (∃ c, post.head? = some c ∧ (c.isAlphanum = true ∨ c = '_')) := by
  by_contra hcon
  obtain ⟨h1, h2⟩ := not_or.mp hcon
  apply h
  refine ⟨pre, post, hs, ?_, ?_⟩
  · intro c hc
    rw [isWordChar_false_iff]
    exact fun hw => h1 ⟨c, hc, hw⟩
  · intro c hc
    rw [isWordChar_false_iff]
    exact fun hw => h2 ⟨c, hc, hw⟩

/-! ## The reply rules -/

/-- C1: a `posted` event of the logging channel whose payload decodes to a post by
someone other than the bot, with a keyword as a whole word in its message, makes
the handler return after sending exactly one post: text "Yes I'm running", in the
logging channel, with the triggering post as parent. -/
theorem keyword_reply_sent (srv : Server σ) (PostFromJson : String → Option Post)
    (event : WebSocketEvent) (w : World σ) (ch : Channel) (bot : User) (text : String) (p : Post)
    (tok : String)
    (hch : w.debuggingChannel = some ch) (hbot : w.botUser = some bot)
    (hbc : event.Broadcast.ChannelId = ch.Id) (hev : event.Event = WEBSOCKET_EVENT_POSTED)
    (hdata : event.Data "post" = .str text) (hparse : PostFromJson text = some p)
    (hauthor : p.UserId ≠ bot.Id)
    (htok : tok ∈ keywords) (hword : WholeWord tok p.Message) :
    (handleMsgFromDebuggingChannel srv PostFromJson event w).returns = true ∧
    sentPosts (handleMsgFromDebuggingChannel srv PostFromJson event w).world.trace =
      sentPosts w.trace ++
        [{ Id := "", UserId := "", ChannelId := ch.Id, RootId := p.Id,
           Message := "Yes I'm running" }] :=
  handle_keyword srv PostFromJson event w ch bot text p hch hbot hbc hev hdata hparse hauthor
    ⟨tok, htok, (matchString_wordPattern_iff tok p.Message).mpr hword⟩

theorem keyword_reply_sent_witness :
    WholeWord "alive" "are you alive?" ∧
    sentPosts (handleMsgFromDebuggingChannel (Fixture.server true true) (Fixture.decode "user-id")
        (Fixture.posted "are you alive?") Fixture.world).world.trace =
      [{ Id := "", UserId := "", ChannelId := "channel-id", RootId := "post-id",
         Message := "Yes I'm running" }] :=
  ⟨⟨"are you ".data, "?".data, rfl, by decide, by decide⟩,
   (keyword_reply_sent (Fixture.server true true) (Fixture.decode "user-id")
      (Fixture.posted "are you alive?") Fixture.world Fixture.channel Fixture.bot
      "are you alive?" ⟨"post-id", "user-id", "channel-id", "", "are you alive?"⟩ "alive"
      rfl rfl rfl rfl (by decide) rfl (by decide) (by decide)
      ⟨"are you ".data, "?".data, rfl, by decide, by decide⟩).2⟩

/-- C2: a `posted` event of the logging channel whose payload decodes to a post by
someone other than the bot, with no keyword as a whole word in its message: none
of the four patterns matches, and the handler returns after sending exactly one
post, the fallback "I did not understand you!", with the triggering post as
parent. -/
theorem fallback_reply_sent (srv : Server σ) (PostFromJson : String → Option Post)
    (event : WebSocketEvent) (w : World σ) (ch : Channel) (bot : User) (text : String) (p : Post)
    (hch : w.debuggingChannel = some ch) (hbot : w.botUser = some bot)
    (hbc : event.Broadcast.ChannelId = ch.Id) (hev : event.Event = WEBSOCKET_EVENT_POSTED)
    (hdata : event.Data "post" = .str text) (hparse : PostFromJson text = some p)
    (hauthor : p.UserId ≠ bot.Id)
    (hword : ∀ tok, tok ∈ keywords → ¬ WholeWord tok p.Message) :
    (∀ tok, tok ∈ keywords → MatchString (wordPattern tok) p.Message = false) ∧
    (handleMsgFromDebuggingChannel srv PostFromJson event w).returns = true ∧
    sentPosts (handleMsgFromDebuggingChannel srv PostFromJson event w).world.trace =
      sentPosts w.trace ++
        [{ Id := "", UserId := "", ChannelId := ch.Id, RootId := p.Id,
           Message := "I did not understand you!" }] := by
  have hkw : ∀ tok, tok ∈ keywords → MatchString (wordPattern tok) p.Message = false := by
    intro tok htok
    cases hm : MatchString (wordPattern tok) p.Message with
    | false => rfl
    | true => exact absurd ((matchString_wordPattern_iff tok p.Message).mp hm) (hword tok htok)
  exact ⟨hkw, handle_fallback srv PostFromJson event w ch bot text p hch hbot hbc hev hdata
    hparse hauthor hkw⟩

theorem fallback_reply_sent_witness :
    sentPosts (handleMsgFromDebuggingChannel (Fixture.server true true) (Fixture.decode "user-id")
        (Fixture.posted "standup") Fixture.world).world.trace =
      [{ Id := "", UserId := "", ChannelId := "channel-id", RootId := "post-id",
         Message := "I did not understand you!" }] :=
  (fallback_reply_sent (Fixture.server true true) (Fixture.decode "user-id")
      (Fixture.posted "standup") Fixture.world Fixture.channel Fixture.bot
      "standup" ⟨"post-id", "user-id", "channel-id", "", "standup"⟩
      rfl rfl rfl rfl (by decide) rfl (by decide)
      (by
        intro tok htok hw
        have hm := (matchString_wordPattern_iff tok _).mpr hw
        simp only [keywords, List.mem_cons, List.mem_singleton, List.not_mem_nil, or_false] at htok
        rcases htok with rfl | rfl | rfl | rfl <;> exact absurd hm (by decide))).2.2

/-- C3: an event that carries a post written by the bot itself makes the handler
send nothing, whatever the message, the kind of the event and its channel; with
a logging channel resolved the handler returns normally. -/
theorem own_post_ignored (srv : Server σ) (PostFromJson : String → Option Post)
    (event : WebSocketEvent) (w : World σ) (bot : User) (text : String) (p : Post)
    (hbot : w.botUser = some bot)
    (hdata : event.Data "post" = .str text) (hparse : PostFromJson text = some p)
    (hauthor : p.UserId = bot.Id) :
    sentPosts (handleMsgFromDebuggingChannel srv PostFromJson event w).world.trace =
      sentPosts w.trace ∧
    (w.debuggingChannel ≠ none →
      (handleMsgFromDebuggingChannel srv PostFromJson event w).returns = true) := by
  cases hch : w.debuggingChannel with
  | none =>
    simp [handleMsgFromDebuggingChannel, bind, Prog.andThen, getWorld, deref, hch, Res.world]
  | some ch =>
    by_cases hbc : event.Broadcast.ChannelId = ch.Id
    · by_cases hev : event.Event = WEBSOCKET_EVENT_POSTED
      · rw [handle_posted srv PostFromJson event w ch text hch hbc hev hdata, hparse]
        have h1 := handlePost_own srv p
          { w with trace := w.trace ++ [.println "responding to debugging channel msg"] } bot
          hbot hauthor
        simp only [h1]
        simp [Res.world, Res.returns, sentPosts_append, sentPosts]
      · simp [handleMsgFromDebuggingChannel, bind, Prog.andThen, getWorld, deref, hch, hbc, hev,
          pure, Prog.ret, Res.world, Res.returns]
    · simp [handleMsgFromDebuggingChannel, bind, Prog.andThen, getWorld, deref, hch, hbc,
        pure, Prog.ret, Res.world, Res.returns]

theorem own_post_ignored_witness :
    sentPosts (handleMsgFromDebuggingChannel (Fixture.server true true) (Fixture.decode "bot-id")
        (Fixture.posted "are you alive?") Fixture.world).world.trace = [] :=
  (own_post_ignored (Fixture.server true true) (Fixture.decode "bot-id")
      (Fixture.posted "are you alive?") Fixture.world Fixture.bot
      "are you alive?" ⟨"post-id", "bot-id", "channel-id", "", "are you alive?"⟩
      rfl (by decide) rfl rfl).1

/-- C4: an event broadcast to a channel other than the logging channel makes the
handler return at once: nothing is sent, nothing is printed, and the result does
not depend on the event kind, on the payload (which may be absent or not a
string) or on the decoder. -/
theorem other_channel_ignored (srv : Server σ) (PostFromJson : String → Option Post)
    (event : WebSocketEvent) (w : World σ) (ch : Channel)
    (hch : w.debuggingChannel = some ch) (hbc : event.Broadcast.ChannelId ≠ ch.Id) :
    handleMsgFromDebuggingChannel srv PostFromJson event w = .ok () w := by
  simp [handleMsgFromDebuggingChannel, bind, Prog.andThen, getWorld, deref, hch, hbc, pure,
    Prog.ret]

theorem other_channel_ignored_witness :
    (handleMsgFromDebuggingChannel (Fixture.server true true) (Fixture.decode "user-id")
        ⟨WEBSOCKET_EVENT_POSTED, fun _ => .other, ⟨"town-square"⟩⟩ Fixture.world).world.trace = [] :=
  congrArg (fun r => r.world.trace)
    (other_channel_ignored (Fixture.server true true) (Fixture.decode "user-id")
      ⟨WEBSOCKET_EVENT_POSTED, fun _ => .other, ⟨"town-square"⟩⟩ Fixture.world Fixture.channel
      rfl (by decide))

/-- C5 (the code departs from the claim): for a `posted` event of the logging
channel whose payload does not decode (`PostFromJson` gives nil) the handler does
not return: after the nil check it reads `post.Id` for the fallback and panics
with a nil dereference. Nothing is sent. -/
theorem undecodable_payload_panics (srv : Server σ) (s : σ) (cl : Client4)
    (ws : Option WebSocketClient) (bot : Option User) (team : Option Team) (ch : Channel)
    (tr : List Effect) (text : String) :
    handleMsgFromDebuggingChannel srv (fun _ => none)
        ⟨WEBSOCKET_EVENT_POSTED, fun _ => .str text, ⟨ch.Id⟩⟩
        ⟨s, cl, ws, bot, team, some ch, tr⟩ =
      .panic .nilDereference
        ⟨s, cl, ws, bot, team, some ch, tr ++ [.println "responding to debugging channel msg"]⟩ := by
  rw [handle_posted srv (fun _ => none) _ _ ch text rfl rfl rfl rfl]

/-- C10: only the ASCII letters, the digits and the underscore count as word
characters in the keyword rules. For a post by someone else in the logging
channel:
* if some keyword occurs in the body with each neighbour, where there is one,
  being neither an ASCII letter, a digit nor an underscore (a letter outside
  ASCII is such a neighbour), the handler returns after sending exactly one
  post, "Yes I'm running" (the bodies "éup" and "helloé" are of this kind);
* if every occurrence of every keyword in the body has a neighbour that is an
  ASCII letter, a digit or an underscore, no rule fires and the handler returns
  after sending exactly one post, the fallback (the bodies "_up" and "up2" are
  of this kind). -/
theorem ascii_word_chars (srv : Server σ) (PostFromJson : String → Option Post)
    (event : WebSocketEvent) (w : World σ) (ch : Channel) (bot : User) (text : String) (p : Post)
    (hch : w.debuggingChannel = some ch) (hbot : w.botUser = some bot)
    (hbc : event.Broadcast.ChannelId = ch.Id) (hev : event.Event = WEBSOCKET_EVENT_POSTED)
    (hdata : event.Data "post" = .str text) (hparse : PostFromJson text = some p)
    (hauthor : p.UserId ≠ bot.Id) :
    (∀ c : Char, isWordChar c = true ↔
      (48 ≤ c.toNat ∧ c.toNat ≤ 57) ∨ (65 ≤ c.toNat ∧ c.toNat ≤ 90) ∨
      (97 ≤ c.toNat ∧ c.toNat ≤ 122) ∨ c.toNat = 95) ∧
    (∀ c : Char, 128 ≤ c.toNat → ¬ (c.isAlphanum = true ∨ c = '_')) ∧
    ((∃ tok pre post, tok ∈ keywords ∧ p.Message.data = pre ++ tok.data ++ post ∧
        (∀ c, pre.getLast? = some c → ¬ (c.isAlphanum = true ∨ c = '_')) ∧
        (∀ c, post.head? = some c → ¬ (c.isAlphanum = true ∨ c = '_'))) ∨
      (∃ tok pre post, tok ∈ keywords ∧ p.Message.data = pre ++ tok.data ++ post ∧
        (∀ c, pre.getLast? = some c → 128 ≤ c.toNat) ∧
        (∀ c, post.head? = some c → 128 ≤ c.toNat)) ∨
      p.Message = "éup" ∨ p.Message = "helloé" →
      (handleMsgFromDebuggingChannel srv PostFromJson event w).returns = true ∧
      sentPosts (handleMsgFromDebuggingChannel srv PostFromJson event w).world.trace =
        sentPosts w.trace ++
          [{ Id := "", UserId := "", ChannelId := ch.Id, RootId := p.Id,
             Message := "Yes I'm running" }]) ∧
    ((∀ tok pre post, tok ∈ keywords → p.Message.data = pre ++ tok.data ++ post →
        (∃ c, pre.getLast? = some c ∧ (c.isAlphanum = true ∨ c = '_')) ∨
        (∃ c, post.head? = some c ∧ (c.isAlphanum = true ∨ c = '_'))) ∨
      p.Message = "_up" ∨ p.Message = "up2" →
      (∀ tok, tok ∈ keywords → MatchString (wordPattern tok) p.Message = false) ∧
      (handleMsgFromDebuggingChannel srv PostFromJson event w).returns = true ∧
      sentPosts (handleMsgFromDebuggingChannel srv PostFromJson event w).world.trace =
        sentPosts w.trace ++
          [{ Id := "", UserId := "", ChannelId := ch.Id, RootId := p.Id,
             Message := "I did not understand you!" }]) := by
  have hnon : ∀ c : Char, 128 ≤ c.toNat → ¬ (c.isAlphanum = true ∨ c = '_') := by
    intro c hc
    exact (isWordChar_false_iff c).mp (isWordChar_of_nonASCII c hc)
  refine ⟨isWordChar_iff, hnon, ?_, ?_⟩
  · intro h
    refine handle_keyword srv PostFromJson event w ch bot text p hch hbot hbc hev hdata hparse
      hauthor ?_
    rcases h with ⟨tok, pre, post, htok, hs, hpre, hpost⟩ |
      ⟨tok, pre, post, htok, hs, hpre, hpost⟩ | h | h
    · exact ⟨tok, htok, (matchString_wordPattern_iff tok p.Message).mpr
        ⟨pre, post, hs, fun c hc => (isWordChar_false_iff c).mpr (hpre c hc),
          fun c hc => (isWordChar_false_iff c).mpr (hpost c hc)⟩⟩
    · exact ⟨tok, htok, (matchString_wordPattern_iff tok p.Message).mpr
        ⟨pre, post, hs, fun c hc => isWordChar_of_nonASCII c (hpre c hc),
          fun c hc => isWordChar_of_nonASCII c (hpost c hc)⟩⟩
    · exact ⟨"up", by decide, by rw [h]; decide⟩
    · exact ⟨"hello", by decide, by rw [h]; decide⟩
  · intro h
    have hkw : ∀ tok, tok ∈ keywords → MatchString (wordPattern tok) p.Message = false := by
      intro tok htok
      rcases h with h | h | h
      · cases hm : MatchString (wordPattern tok) p.Message with
        | false => rfl
        | true =>
          exfalso
          obtain ⟨pre, post, hs, hpre, hpost⟩ := (matchString_wordPattern_iff tok p.Message).mp hm
          rcases h tok pre post htok hs with ⟨c, hc, hw⟩ | ⟨c, hc, hw⟩
          · exact (isWordChar_false_iff c).mp (hpre c hc) hw
          · exact (isWordChar_false_iff c).mp (hpost c hc) hw
      · simp only [keywords, List.mem_cons, List.mem_singleton, List.not_mem_nil, or_false]
          at htok
        rw [h]
        rcases htok with rfl | rfl | rfl | rfl <;> decide
      · simp only [keywords, List.mem_cons, List.mem_singleton, List.not_mem_nil, or_false]
          at htok
        rw [h]
        rcases htok with rfl | rfl | rfl | rfl <;> decide
    exact ⟨hkw, handle_fallback srv PostFromJson event w ch bot text p hch hbot hbc hev hdata
      hparse hauthor hkw⟩

theorem ascii_word_chars_witness :
    sentPosts (handleMsgFromDebuggingChannel (Fixture.server true true) (Fixture.decode "user-id")
        (Fixture.posted "éup now") Fixture.world).world.trace =
      [{ Id := "", UserId := "", ChannelId := "channel-id", RootId := "post-id",
         Message := "Yes I'm running" }] ∧
    sentPosts (handleMsgFromDebuggingChannel (Fixture.server true true) (Fixture.decode "user-id")
        (Fixture.posted "say_hello_world") Fixture.world).world.trace =
      [{ Id := "", UserId := "", ChannelId := "channel-id", RootId := "post-id",
         Message := "I did not understand you!" }] :=
  ⟨((ascii_word_chars (Fixture.server true true) (Fixture.decode "user-id")
      (Fixture.posted "éup now") Fixture.world Fixture.channel Fixture.bot
      "éup now" ⟨"post-id", "user-id", "channel-id", "", "éup now"⟩
      rfl rfl rfl rfl (by decide) rfl (by decide)).2.2.1
    (Or.inl ⟨"up", "é".data, " now".data, by decide, rfl,
      fun c hc => by
        have h1 : c = 'é' := by simpa using hc.symm
        rw [h1]
        decide,
      fun c hc => by
        have h1 : c = ' ' := by simpa using hc.symm
        rw [h1]
        decide⟩)).2,
   ((ascii_word_chars (Fixture.server true true) (Fixture.decode "user-id")
      (Fixture.posted "say_hello_world") Fixture.world Fixture.channel Fixture.bot
      "say_hello_world" ⟨"post-id", "user-id", "channel-id", "", "say_hello_world"⟩
      rfl rfl rfl rfl (by decide) rfl (by decide)).2.2.2
    (Or.inl (fun tok pre post htok hs =>
      wordNeighbour_of_not_wholeWord tok "say_hello_world"
        (fun hw => by
          have hm := (matchString_wordPattern_iff tok _).mpr hw
          simp only [keywords, List.mem_cons, List.mem_singleton, List.not_mem_nil, or_false]
            at htok
          rcases htok with rfl | rfl | rfl | rfl <;> exact absurd hm (by decide))
        pre post hs))).2.2⟩

end Handler

/-! ## Bootstrap -/

section Bootstrap
variable {σ : Type}

theorem quiet_andThen {α β : Type} (m : Prog σ α) (g : α → Prog σ β)
    (hm : Quiet m) (hg : ∀ a, Quiet (g a)) : Quiet (m.andThen g) := by
  intro w
  have h := hm w
  unfold Prog.andThen
  cases hr : m w with
  | ok a w1 =>
    rw [hr] at h
    have h2 := hg a w1
    exact ⟨h2.1.trans h.1, h2.2⟩
  | exit c w1 => rw [hr] at h; exact h
  | panic k w1 => rw [hr] at h; exact h

theorem quiet_println (s : String) : Quiet (println s : Prog σ Unit) := by
  intro w
  simp [println, emit, Res.world, Res.status, channelOps, Effect.isChannelOp]

theorem quiet_printError (err : AppError) : Quiet (printError err : Prog σ Unit) := by
  intro w
  simp [printError_ok, Res.world, Res.status, channelOps, Effect.isChannelOp]

theorem quiet_setupGracefulShutdown : Quiet (setupGracefulShutdown : Prog σ Unit) := by
  intro w
  simp [setupGracefulShutdown, emit, Res.world, Res.status, channelOps, Effect.isChannelOp]

theorem quiet_makeSureServerIsRunning (srv : Server σ) : Quiet (makeSureServerIsRunning srv) := by
  intro w
  simp only [makeSureServerIsRunning, bind, Prog.andThen, query]
  cases h : (srv.GetOldClientConfig w.server).Error <;>
    simp [println, emit, printError, osExit, bind, Prog.andThen, Res.world, Res.status,
      channelOps, Effect.isChannelOp]

theorem quiet_loginAsTheBotUser (srv : Server σ) : Quiet (loginAsTheBotUser srv) := by
  intro w
  simp only [loginAsTheBotUser, bind, Prog.andThen, request]
  cases h : (srv.Login w.server UserEmail UserPassword).2.2.Error <;>
    simp [println, emit, printError, osExit, setWorld, bind, Prog.andThen, Res.world, Res.status,
      channelOps, Effect.isChannelOp]

theorem quiet_updateTheBotUserIfNeeded (srv : Server σ) :
    Quiet (updateTheBotUserIfNeeded srv) := by
  intro w
  simp only [updateTheBotUserIfNeeded, bind, Prog.andThen, getWorld, deref]
  cases hu : w.botUser with
  | none => simp [Res.world, Res.status]
  | some u =>
    simp only []
    split
    · simp only [Prog.andThen, setWorld, request]
      generalize srv.UpdateUser w.server _ = r
      obtain ⟨s1, v, e⟩ := r
      cases e <;>
        simp [println, emit, printError, osExit, setWorld, bind, Prog.andThen, Res.world,
          Res.status, channelOps, Effect.isChannelOp]
    · simp [pure, Prog.ret, Res.world, Res.status]

theorem findBotTeam_fails (srv : Server σ) (w : World σ)
    (h : (srv.GetTeamByName w.server TeamName).Error ≠ none) :
    ∃ w1, findBotTeam srv w = .exit 1 w1 ∧ channelOps w1.trace = channelOps w.trace := by
  simp only [findBotTeam, bind, Prog.andThen, query]
  cases he : (srv.GetTeamByName w.server TeamName).Error with
  | none => exact absurd he h
  | some err =>
    simp [println, emit, printError, osExit, bind, Prog.andThen, channelOps, Effect.isChannelOp]

theorem quiet_setWorld (f : World σ → World σ) (hf : ∀ w, (f w).trace = w.trace) :
    Quiet (setWorld f) := by
  intro w
  simp [setWorld, Res.world, Res.status, hf]

theorem andThen_assoc {α β γ : Type} (m : Prog σ α) (g : α → Prog σ β) (h : β → Prog σ γ) :
    (m.andThen g).andThen h = m.andThen (fun a => (g a).andThen h) := by
  funext w
  unfold Prog.andThen
  cases m w <;> rfl

/-- `main` up to `Listen()` is the steps before the team lookup, the team lookup,
and the steps after it, in this order. -/
theorem mainStart_split (srv : Server σ) :
    mainStart srv =
      (stepsBeforeTeam srv).andThen fun _ =>
        (findBotTeam srv).andThen fun _ => stepsAfterTeam srv := by
  simp only [mainStart, stepsBeforeTeam, stepsAfterTeam, bind, andThen_assoc]

theorem quiet_stepsBeforeTeam (srv : Server σ) : Quiet (stepsBeforeTeam srv) := by
  simp only [stepsBeforeTeam, bind]
  refine quiet_andThen _ _ (quiet_println _) (fun _ => ?_)
  refine quiet_andThen _ _ quiet_setupGracefulShutdown (fun _ => ?_)
  refine quiet_andThen _ _ (quiet_setWorld _ (fun _ => rfl)) (fun _ => ?_)
  refine quiet_andThen _ _ (quiet_makeSureServerIsRunning srv) (fun _ => ?_)
  refine quiet_andThen _ _ (quiet_loginAsTheBotUser srv) (fun _ => ?_)
  exact quiet_updateTheBotUserIfNeeded srv

/-- C6: when the run of `main` reaches `findBotTeam` (the steps before it return,
in the world `w1`) and the server, in the state it is in at that point, answers
the team lookup with an error, `findBotTeam` ends the process with `os.Exit(1)`:
the run of `main` ends there with status 1, and no channel lookup, channel
creation or post has been issued in it. -/
theorem team_failure_stops_bootstrap (srv : Server σ)
    (PostFromJson : String → Option Post) (events : List WebSocketEvent) (w w1 : World σ)
    (hreach : stepsBeforeTeam srv w = .ok () w1)
    (hteam : (srv.GetTeamByName w1.server TeamName).Error ≠ none) :
    ∃ w2, findBotTeam srv w1 = .exit 1 w2 ∧
      main srv PostFromJson events w = .exit 1 w2 ∧
      channelOps w2.trace = channelOps w.trace := by
  obtain ⟨w2, h1, h2⟩ := findBotTeam_fails srv w1 hteam
  refine ⟨w2, h1, ?_, ?_⟩
  · simp only [main, bind, mainStart_split, Prog.andThen, hreach, h1]
  · have hq := (quiet_stepsBeforeTeam srv w).1
    rw [hreach] at hq
    exact h2.trans hq

theorem team_failure_stops_bootstrap_witness :
    (main (Fixture.server false true) (Fixture.decode "user-id")
        [Fixture.posted "are you alive?"] (World.start [])).status = some 1 ∧
    channelOps (main (Fixture.server false true) (Fixture.decode "user-id")
        [Fixture.posted "are you alive?"] (World.start [])).world.trace = [] := by
  obtain ⟨w2, -, h2, h3⟩ := team_failure_stops_bootstrap (Fixture.server false true)
    (Fixture.decode "user-id") [Fixture.posted "are you alive?"] (World.start [])
    (stepsBeforeTeam (Fixture.server false true) (World.start [])).world
    rfl (by decide)
  rw [h2]
  exact ⟨rfl, h3⟩

/-! ## Resolve-or-create -/

theorem createRequests_append (a b : List Effect) :
    createRequests (a ++ b) = createRequests a ++ createRequests b := by
  induction a with
  | nil => rfl
  | cons e es ih => cases e <;> simp [createRequests, ih]

/-- The lookup succeeds: the channel found is adopted, nothing else is requested. -/
theorem create_found (srv : Server σ) (w : World σ) (team : Team)
    (hteam : w.botTeam = some team)
    (hget : (srv.GetChannelByName w.server ChannelLogName team.Id).Error = none) :
    createBotDebuggingChannelIfNeeded srv w = .ok ()
      { w with
        debuggingChannel := (srv.GetChannelByName w.server ChannelLogName team.Id).val
        trace := w.trace ++ [.getChannelByName ChannelLogName team.Id] } := by
  simp [createBotDebuggingChannelIfNeeded, bind, Prog.andThen, getWorld, deref, hteam, query,
    hget, setWorld]

/-- The lookup fails: the error is reported and the channel is submitted once;
the channel the server reports as created is adopted, a refusal is reported and
leaves the logging channel as it was. Either way the function returns. -/
theorem create_notFound (srv : Server σ) (w : World σ) (team : Team) (err : AppError)
    (hteam : w.botTeam = some team)
    (hget : (srv.GetChannelByName w.server ChannelLogName team.Id).Error = some err) :
    ∃ w1, createBotDebuggingChannelIfNeeded srv w = .ok () w1 ∧
      w1.server = (srv.CreateChannel w.server (logChannel team)).1 ∧
      w1.botTeam = w.botTeam ∧
      createRequests w1.trace = createRequests w.trace ++ [logChannel team] ∧
      sentPosts w1.trace = sentPosts w.trace ∧
      w1.debuggingChannel =
        (match (srv.CreateChannel w.server (logChannel team)).2.Error with
          | none => (srv.CreateChannel w.server (logChannel team)).2.val
          | some _ => w.debuggingChannel) ∧
      (∀ err1, (srv.CreateChannel w.server (logChannel team)).2.Error = some err1 →
        Effect.println ("We failed to create the channel " ++ ChannelLogName) ∈ w1.trace) := by
  simp only [createBotDebuggingChannelIfNeeded, bind, Prog.andThen, getWorld, deref, hteam, query,
    hget, println, emit, printError, request]
  have hl : ({ Channel.zero with
        Name := ChannelLogName
        DisplayName := "Debugging For Sample Bot"
        Purpose := "This is used as a test channel for logging bot debug messages"
        Type_ := CHANNEL_OPEN
        TeamId := team.Id } : Channel) = logChannel team := rfl
  simp only [hl]
  cases hc : (srv.CreateChannel w.server (logChannel team)).2.Error with
  | none =>
    simp [setWorld, Prog.andThen, emit, createRequests_append, createRequests,
      sentPosts_append, sentPosts, hteam]
  | some err1 =>
    simp [Prog.andThen, emit, createRequests_append, createRequests,
      sentPosts_append, sentPosts, hteam]

/-- Without a logging channel `sendMsgToDebuggingChannel` panics on
`debuggingChannel.Id` before any request is made. -/
theorem sendMsg_without_channel (srv : Server σ) (msg replyToID : String) (w : World σ)
    (hch : w.debuggingChannel = none) :
    sendMsgToDebuggingChannel srv msg replyToID w = .panic .nilDereference w := by
  simp [sendMsgToDebuggingChannel, bind, Prog.andThen, getWorld, deref, hch]

theorem createdIsFound_refusing : CreatedIsFound (Fixture.server true false) := by
  intro s c h
  simp only [Fixture.server] at h
  split at h <;> simp at h

theorem createdIsFound_creating : CreatedIsFound (Fixture.server true true) := by
  intro s c h
  simp only [Fixture.server] at h ⊢
  cases hf : s.find? (fun d => d.Name = c.Name ∧ d.TeamId = c.TeamId) with
  | some d =>
    rw [hf] at h
    simp at h
  | none =>
    simp only [↓reduceIte, List.find?_append, hf]
    simp

/-- C8, as amended: over a server on which a created channel is found by the next
lookup, when the first run of `createBotDebuggingChannelIfNeeded` resolves a
channel (its lookup succeeds, or its creation does), a second run finds that
channel: its lookup succeeds, it adopts the same channel, it submits no channel
and leaves the server as it was, so the two runs submit at most one. Whenever
the lookup succeeds the channel found is adopted and nothing is submitted. -/
theorem resolve_or_create_twice (srv : Server σ) (w : World σ) (team : Team)
    (hteam : w.botTeam = some team) (hsrv : CreatedIsFound srv)
    (hfirst : (srv.GetChannelByName w.server ChannelLogName team.Id).Error = none ∨
      (srv.CreateChannel w.server (logChannel team)).2.Error = none) :
    ((srv.GetChannelByName w.server ChannelLogName team.Id).Error = none →
      createBotDebuggingChannelIfNeeded srv w = .ok ()
        { w with
          debuggingChannel := (srv.GetChannelByName w.server ChannelLogName team.Id).val
          trace := w.trace ++ [.getChannelByName ChannelLogName team.Id] }) ∧
    ∃ w1 w2, createBotDebuggingChannelIfNeeded srv w = .ok () w1 ∧
      createBotDebuggingChannelIfNeeded srv w1 = .ok () w2 ∧
      srv.GetChannelByName w1.server ChannelLogName team.Id = ⟨w1.debuggingChannel, none⟩ ∧
      w2.debuggingChannel = w1.debuggingChannel ∧
      createRequests w2.trace = createRequests w1.trace ∧
      w2.server = w1.server ∧
      (createRequests w2.trace).length ≤ (createRequests w.trace).length + 1 := by
  refine ⟨create_found srv w team hteam, ?_⟩
  cases hget : (srv.GetChannelByName w.server ChannelLogName team.Id).Error with
  | none =>
    have h1 := create_found srv w team hteam hget
    have h2 := create_found srv _ team
      (show ({ w with
        debuggingChannel := (srv.GetChannelByName w.server ChannelLogName team.Id).val
        trace := w.trace ++ [.getChannelByName ChannelLogName team.Id] } : World σ).botTeam =
          some team from hteam) hget
    refine ⟨_, _, h1, h2, ?_, rfl, ?_, rfl, ?_⟩
    · cases hr : srv.GetChannelByName w.server ChannelLogName team.Id with
      | mk v e =>
        rw [hr] at hget
        simp only at hget
        subst hget
        rfl
    · simp [createRequests_append, createRequests]
    · simp [createRequests_append, createRequests]
  | some err =>
    have hc : (srv.CreateChannel w.server (logChannel team)).2.Error = none := by
      rcases hfirst with h | h
      · rw [hget] at h
        exact absurd h (by simp)
      · exact h
    obtain ⟨w1, h1, hs1, ht1, hr1, -, hd1, -⟩ := create_notFound srv w team err hteam hget
    rw [hc] at hd1
    simp only at hd1
    have hfound : srv.GetChannelByName w1.server ChannelLogName team.Id =
        ⟨w1.debuggingChannel, none⟩ := by
      rw [hs1, hd1]
      exact hsrv w.server (logChannel team) hc
    have hget1 : (srv.GetChannelByName w1.server ChannelLogName team.Id).Error = none := by
      rw [hfound]
    have h2 := create_found srv w1 team (ht1.trans hteam) hget1
    refine ⟨w1, _, h1, h2, hfound, ?_, ?_, rfl, ?_⟩
    · simp only [hfound]
    · simp [createRequests_append, createRequests]
    · simp [createRequests_append, createRequests, hr1]

theorem resolve_or_create_twice_witness :
    ∃ w1 w2, createBotDebuggingChannelIfNeeded (Fixture.server true true)
        { World.start [] with botTeam := some Fixture.team } = .ok () w1 ∧
      createBotDebuggingChannelIfNeeded (Fixture.server true true) w1 = .ok () w2 ∧
      (Fixture.server true true).GetChannelByName w1.server ChannelLogName Fixture.team.Id =
        ⟨w1.debuggingChannel, none⟩ ∧
      w2.debuggingChannel = w1.debuggingChannel ∧
      createRequests w2.trace = createRequests w1.trace ∧
      w2.server = w1.server ∧
      (createRequests w2.trace).length ≤ 0 + 1 :=
  (resolve_or_create_twice (Fixture.server true true)
    { World.start [] with botTeam := some Fixture.team } Fixture.team rfl
    createdIsFound_creating (Or.inr (by decide))).2

/-- C8 fails as stated: on a server that refuses both the lookup and the creation
(which meets the server model: nothing is ever created) the second run's lookup
fails again, and the two runs submit the channel twice. -/
theorem resolve_or_create_twice_counterexample :
    CreatedIsFound (Fixture.server true false) ∧
    ((Fixture.server true false).GetChannelByName
        (createBotDebuggingChannelIfNeeded (Fixture.server true false)
          { World.start [] with botTeam := some Fixture.team }).world.server
        ChannelLogName Fixture.team.Id).Error ≠ none ∧
    createRequests
        (createBotDebuggingChannelIfNeeded (Fixture.server true false)
          (createBotDebuggingChannelIfNeeded (Fixture.server true false)
            { World.start [] with botTeam := some Fixture.team }).world).world.trace =
      [logChannel Fixture.team, logChannel Fixture.team] :=
  ⟨createdIsFound_refusing, by decide, by decide⟩

/-- C7 (the code departs from the claim): on a server that refuses both the channel
lookup and the channel creation, `createBotDebuggingChannelIfNeeded` reports and
returns with no logging channel, and the announce step that follows panics on
`debuggingChannel.Id`: the process ends with status 2 and no post is sent. -/
theorem degraded_bootstrap_panics (srv : Server σ) (s : σ) (cl : Client4)
    (ws : Option WebSocketClient) (bot : Option User) (team : Option Team) (tr : List Effect)
    (msg replyToID : String) :
    sendMsgToDebuggingChannel srv msg replyToID ⟨s, cl, ws, bot, team, none, tr⟩ =
      .panic .nilDereference ⟨s, cl, ws, bot, team, none, tr⟩ ∧
    (createBotDebuggingChannelIfNeeded (Fixture.server true false)
        { World.start [] with botTeam := some Fixture.team }).returns = true ∧
    (mainStart (Fixture.server true false) (World.start [])).panicked? = some .nilDereference ∧
    (mainStart (Fixture.server true false) (World.start [])).status = some 2 ∧
    (mainStart (Fixture.server true false) (World.start [])).world.debuggingChannel = none ∧
    createRequests (mainStart (Fixture.server true false) (World.start [])).world.trace =
      [logChannel Fixture.team] ∧
    sentPosts (mainStart (Fixture.server true false) (World.start [])).world.trace = [] :=
  ⟨sendMsg_without_channel srv msg replyToID _ rfl, by decide⟩

theorem closedStreams_append (a b : List Effect) :
    closedStreams (a ++ b) = closedStreams a ++ closedStreams b := by
  induction a with
  | nil => rfl
  | cons e es ih => cases e <;> simp [closedStreams, ih]

theorem keepsStream_andThen {α β : Type} (m : Prog σ α) (g : α → Prog σ β)
    (hm : KeepsStream m) (hg : ∀ a, KeepsStream (g a)) : KeepsStream (m.andThen g) := by
  intro w
  have h := hm w
  unfold Prog.andThen
  cases hr : m w with
  | ok a w1 =>
    rw [hr] at h
    exact (hg a w1).trans h
  | exit c w1 => rw [hr] at h; exact h
  | panic k w1 => rw [hr] at h; exact h

theorem keepsStream_println (s : String) : KeepsStream (println s : Prog σ Unit) := by
  intro w
  simp [println, emit, Res.world, streamObs, closedStreams_append, closedStreams]

theorem keepsStream_printError (err : AppError) : KeepsStream (printError err : Prog σ Unit) := by
  intro w
  simp [printError_ok, Res.world, streamObs, closedStreams_append, closedStreams]

theorem keepsStream_makeSureServerIsRunning (srv : Server σ) :
    KeepsStream (makeSureServerIsRunning srv) := by
  intro w
  simp only [makeSureServerIsRunning, bind, Prog.andThen, query]
  cases h : (srv.GetOldClientConfig w.server).Error <;>
    simp [println, emit, printError, osExit, bind, Prog.andThen, Res.world, streamObs,
      closedStreams_append, closedStreams]

theorem keepsStream_loginAsTheBotUser (srv : Server σ) : KeepsStream (loginAsTheBotUser srv) := by
  intro w
  simp only [loginAsTheBotUser, bind, Prog.andThen, request]
  cases h : (srv.Login w.server UserEmail UserPassword).2.2.Error <;>
    simp [println, emit, printError, osExit, setWorld, bind, Prog.andThen, Res.world, streamObs,
      closedStreams_append, closedStreams]

theorem keepsStream_updateTheBotUserIfNeeded (srv : Server σ) :
    KeepsStream (updateTheBotUserIfNeeded srv) := by
  intro w
  simp only [updateTheBotUserIfNeeded, bind, Prog.andThen, getWorld, deref]
  cases hu : w.botUser with
  | none => simp [Res.world]
  | some u =>
    simp only []
    split
    · simp only [Prog.andThen, setWorld, request]
      generalize srv.UpdateUser w.server _ = r
      obtain ⟨s1, v, e⟩ := r
      cases e <;>
        simp [println, emit, printError, osExit, setWorld, bind, Prog.andThen, Res.world,
          streamObs, closedStreams_append, closedStreams]
    · simp [pure, Prog.ret, Res.world]

theorem keepsStream_findBotTeam (srv : Server σ) : KeepsStream (findBotTeam srv) := by
  intro w
  simp only [findBotTeam, bind, Prog.andThen, query]
  cases he : (srv.GetTeamByName w.server TeamName).Error <;>
    simp [println, emit, printError, osExit, setWorld, bind, Prog.andThen, Res.world, streamObs,
      closedStreams_append, closedStreams]

theorem keepsStream_createBotDebuggingChannelIfNeeded (srv : Server σ) :
    KeepsStream (createBotDebuggingChannelIfNeeded srv) := by
  intro w
  simp only [createBotDebuggingChannelIfNeeded, bind, Prog.andThen, getWorld, deref]
  cases ht : w.botTeam with
  | none => simp [Res.world]
  | some team =>
    simp only [query]
    cases hg : (srv.GetChannelByName w.server ChannelLogName team.Id).Error with
    | none => simp [setWorld, Res.world, streamObs, closedStreams_append, closedStreams]
    | some err =>
      simp only [println, emit, printError, bind, Prog.andThen, ht, request, getWorld, deref]
      generalize srv.CreateChannel w.server _ = r
      obtain ⟨s1, v, e⟩ := r
      cases e <;>
        simp [emit, setWorld, Prog.andThen, Res.world, streamObs, closedStreams_append,
          closedStreams]

theorem keepsStream_sendMsgToDebuggingChannel (srv : Server σ) (msg replyToID : String) :
    KeepsStream (sendMsgToDebuggingChannel srv msg replyToID) := by
  intro w
  simp only [sendMsgToDebuggingChannel, bind, Prog.andThen, getWorld, deref]
  cases hc : w.debuggingChannel with
  | none => simp [Res.world]
  | some ch =>
    simp only [request]
    generalize srv.CreatePost w.server _ = r
    obtain ⟨s1, v, e⟩ := r
    cases e <;>
      simp [println, emit, printError, bind, Prog.andThen, pure, Prog.ret, Res.world, streamObs,
        closedStreams_append, closedStreams]

theorem keepsStream_wsListen (ws : Option WebSocketClient) :
    KeepsStream (wsListen ws : Prog σ Unit) := by
  intro w
  cases ws <;>
    simp [wsListen, bind, Prog.andThen, deref, emit, Res.world, streamObs, closedStreams_append,
      closedStreams]

/-- `main` never assigns the package-level `webSocketClient` and closes nothing. -/
theorem keepsStream_mainStart (srv : Server σ) : KeepsStream (mainStart srv) := by
  simp only [mainStart, bind]
  refine keepsStream_andThen _ _ (keepsStream_println _) (fun _ => ?_)
  refine keepsStream_andThen _ _ ?_ (fun _ => ?_)
  · intro w
    simp [setupGracefulShutdown, emit, Res.world, streamObs, closedStreams_append, closedStreams]
  refine keepsStream_andThen _ _ (fun w => rfl) (fun _ => ?_)
  refine keepsStream_andThen _ _ (keepsStream_makeSureServerIsRunning srv) (fun _ => ?_)
  refine keepsStream_andThen _ _ (keepsStream_loginAsTheBotUser srv) (fun _ => ?_)
  refine keepsStream_andThen _ _ (keepsStream_updateTheBotUserIfNeeded srv) (fun _ => ?_)
  refine keepsStream_andThen _ _ (keepsStream_findBotTeam srv) (fun _ => ?_)
  refine keepsStream_andThen _ _ (keepsStream_createBotDebuggingChannelIfNeeded srv) (fun _ => ?_)
  refine keepsStream_andThen _ _ (keepsStream_sendMsgToDebuggingChannel srv _ _) (fun _ => ?_)
  refine keepsStream_andThen _ _ (fun w => rfl) (fun w1 => ?_)
  refine keepsStream_andThen _ _ ?_ (fun r => ?_)
  · intro w
    simp [request, Res.world, streamObs, closedStreams_append, closedStreams]
  obtain ⟨ws, e⟩ := r
  cases e with
  | none =>
    refine keepsStream_andThen _ _ (fun w => rfl) (fun _ => ?_)
    exact keepsStream_andThen _ _ (keepsStream_wsListen _) (fun _ w => rfl)
  | some err =>
    refine keepsStream_andThen _ _ (keepsStream_println _) (fun _ => ?_)
    refine keepsStream_andThen _ _ (keepsStream_printError err) (fun _ => ?_)
    exact keepsStream_andThen _ _ (keepsStream_wsListen _) (fun _ w => rfl)

/-- With the package-level `webSocketClient` nil the interrupt handler closes
nothing. -/
theorem interruptHandler_closes_nothing (srv : Server σ) (w : World σ)
    (hws : w.webSocketClient = none) :
    closedStreams (interruptHandler srv w).world.trace = closedStreams w.trace := by
  have h := keepsStream_sendMsgToDebuggingChannel srv
    ("_" ++ SampleName ++ " has **stopped** running_") "" w
  simp only [interruptHandler, bind, Prog.andThen, getWorld, hws, pure, Prog.ret]
  cases hr : sendMsgToDebuggingChannel srv ("_" ++ SampleName ++ " has **stopped** running_") "" w with
  | ok a w1 =>
    rw [hr] at h
    simpa [streamObs, Res.world, osExit] using congrArg Prod.snd h
  | exit c w1 =>
    rw [hr] at h
    simpa [streamObs, Res.world] using congrArg Prod.snd h
  | panic k w1 =>
    rw [hr] at h
    simpa [streamObs, Res.world] using congrArg Prod.snd h

/-- C9 (the code departs from the claim): `main` opens the event stream through a
local variable, so the package-level `webSocketClient` that the interrupt
handler tests is still nil. After a bootstrap that opened the stream and is
listening, the handler posts the shutdown announcement with no parent and exits
with status 0, and closes nothing. -/
theorem shutdown_leaves_stream_open (srv : Server σ) (s : σ) :
    (mainStart srv (World.start s)).world.webSocketClient = none ∧
    closedStreams (interruptHandler srv (mainStart srv (World.start s)).world).world.trace = [] ∧
    (mainStart (Fixture.server true true) (World.start [])).value? =
      some (some ⟨"ws://localhost:8065", "token"⟩) ∧
    Effect.wsListen ⟨"ws://localhost:8065", "token"⟩ ∈
      (mainStart (Fixture.server true true) (World.start [])).world.trace ∧
    (interruptHandler (Fixture.server true true)
      (mainStart (Fixture.server true true) (World.start [])).world).status = some 0 ∧
    closedStreams (interruptHandler (Fixture.server true true)
      (mainStart (Fixture.server true true) (World.start [])).world).world.trace = [] ∧
    sentPosts (interruptHandler (Fixture.server true true)
      (mainStart (Fixture.server true true) (World.start [])).world).world.trace =
      [{ Id := "", UserId := "", ChannelId := "channel-id", RootId := "",
         Message := "_Mattermost Bot Sample has **started** running_" },
       { Id := "", UserId := "", ChannelId := "channel-id", RootId := "",
         Message := "_Mattermost Bot Sample has **stopped** running_" }] := by
  have h := keepsStream_mainStart srv (World.start s)
  have h1 : (mainStart srv (World.start s)).world.webSocketClient = none :=
    congrArg Prod.fst h
  have h2 : closedStreams (mainStart srv (World.start s)).world.trace = [] :=
    congrArg Prod.snd h
  refine ⟨h1, ?_, by decide⟩
  rw [interruptHandler_closes_nothing srv _ h1, h2]

end Bootstrap

end SampleBot
